import Mathlib

/-!
Verification of the PySimpleMAC control protocol and compute loop.

The compute/render process (rank 0 of `exampleGUI.py`) owns a MAC-method
fluid solver and runs a polling loop over six message tags:

  tag 11 : Reynolds-number update (Int payload)
  tag 12 : run control, start/stop (Bool payload)
  tag 13 : quit (Bool payload)
  tag 14 : reset (Bool payload)
  tag 25 : plot-field selection ('u'/'v'/'p'/'w' payload)
  tag 44 : save-figure request (String payload)

Each `Iprobe`/`recv` pair in the Python source is embedded as a function
popping the head of a per-tag FIFO queue.  The Fortran `mac` module behind
`solver.*` is not part of the shown source; its operations are modelled from
the spec's external-collaborator interface as opaque deterministic functions
over an abstract field type `γ` (a `SolverOps γ` bundle).
-/

/-- Plot-field selector: the payload of tag-25 messages
('u', 'v', 'p', 'w' in the Python source). -/
inductive Plot : Type
  | u | v | p | w
deriving DecidableEq, Repr

/-- Contour-level specification passed to `plt.contourf`.  The source uses
four concrete values; we tag them: `init100` is `linspace(-1,1,100)` from the
startup code, `vel60` is `linspace(-1,1,60)`, `pres40` is the band count `40`,
`vort60` is `linspace(-5,5,60)`. -/
inductive RangeSpec : Type
  | init100 | vel60 | pres40 | vort60
deriving DecidableEq, Repr

/-- Per-tag FIFO message queues of the MPI channel between the GUI process
(rank 1) and the compute process (rank 0).  `Iprobe` on a tag is emptiness of
its queue; `recv` pops the head. -/
structure Channel : Type where
  q11 : List Int
  q12 : List Bool
  q13 : List Bool
  q14 : List Bool
  q25 : List Plot
  q44 : List String
deriving DecidableEq, Repr

/-- The channel with no pending messages on any tag. -/
def emptyChan : Channel :=
  { q11 := [], q12 := [], q13 := [], q14 := [], q25 := [], q44 := [] }

/-- Modelled from the spec: the Fortran `mac` module behind `solver.*` and
`dim.*` is not among the shown source files.  Per the spec's external
collaborator interface (initializeZeroState, applyBoundaryConditions,
applyLidCondition, computeStableTimestep, advanceOneStep) we model it as
deterministic operations over an abstract field-data type `γ`:
`zero` is the fixed state written by `initzero`, `ghost`/`lid` apply boundary
conditions, `tstep` computes a stable timestep from fields and Reynolds
number, `advance` performs one step's field update (the composition of
`calcfngn`, `calcqn`, `poisson`, `calcvel`). -/
structure SolverOps (γ : Type) : Type where
  zero : γ
  ghost : γ → γ
  lid : γ → γ
  tstep : γ → Int → Int
  advance : γ → Int → Int → γ

/-- Persistent solver-module state: the field data (`solver.u/v/p` arrays),
the module Reynolds number `dim.re`, the time accumulator `dim.t`, and the
computed timestep `dim.dt`. -/
structure SolverState (γ : Type) : Type where
  fields : γ
  re : Int
  t : Int
  dt : Int
deriving DecidableEq, Repr

/-- Embeds `solver.initzero()`: overwrite the field data with the fixed
zero-initialized state. -/
def initzero {γ : Type} (ops : SolverOps γ) (s : SolverState γ) : SolverState γ :=
  { s with fields := ops.zero }

/-- Embeds `solver.ghostcondition()`. -/
def ghostcondition {γ : Type} (ops : SolverOps γ) (s : SolverState γ) : SolverState γ :=
  { s with fields := ops.ghost s.fields }

/-- Embeds `solver.lidcondition()`. -/
def lidcondition {γ : Type} (ops : SolverOps γ) (s : SolverState γ) : SolverState γ :=
  { s with fields := ops.lid s.fields }

/-- Embeds `solver.calctstep()`: recompute the stable timestep `dim.dt` from
the current fields and `dim.re` (spec name: computeStableTimestep). -/
def calctstep {γ : Type} (ops : SolverOps γ) (s : SolverState γ) : SolverState γ :=
  { s with dt := ops.tstep s.fields s.re }

/-- Embeds `MACSolver.reset` (macMethod.py lines 100-107): the four calls
`initzero; ghostcondition; lidcondition; calctstep`, with no assignment
to `dim.t`. -/
def MACSolver_reset {γ : Type} (ops : SolverOps γ) (s : SolverState γ) : SolverState γ :=
  calctstep ops (lidcondition ops (ghostcondition ops (initzero ops s)))

/-- Embeds the solver part of `MACSolver.__init__` (macMethod.py lines
80-98): `dim.t = 0` followed by the same four calls as `reset`. -/
def MACSolver_init {γ : Type} (ops : SolverOps γ) (s : SolverState γ) : SolverState γ :=
  calctstep ops (lidcondition ops (ghostcondition ops (initzero ops { s with t := 0 })))

/-- Embeds `MACSolver.step` (macMethod.py lines 109-120): ghost and lid
conditions, timestep computation, then the field update performed by
`calcfngn; calcqn; poisson; calcvel` (modelled as `ops.advance`). -/
def MACSolver_step {γ : Type} (ops : SolverOps γ) (s : SolverState γ) : SolverState γ :=
  let s1 := calctstep ops (lidcondition ops (ghostcondition ops s))
  { s1 with fields := ops.advance s1.fields s1.re s1.dt }

/-- Embeds `fluid.setRe` (macMethod.py lines 68-72): assigns the
solver-module Reynolds number `dim.re` only; the fluid object's own
attribute `re` is not written. -/
def setRe {γ : Type} (s : SolverState γ) (re : Int) : SolverState γ :=
  { s with re := re }

/-- Embeds `fluid.u()`: the displayed array is the solver's u-velocity data;
we record which accessor produced it together with the field snapshot. -/
def fluid_u {γ : Type} (s : SolverState γ) : Plot × γ := (Plot.u, s.fields)

/-- Embeds `fluid.v()`. -/
def fluid_v {γ : Type} (s : SolverState γ) : Plot × γ := (Plot.v, s.fields)

/-- Embeds `fluid.p()`. -/
def fluid_p {γ : Type} (s : SolverState γ) : Plot × γ := (Plot.p, s.fields)

/-- Embeds `fluid.w()` (vorticity). -/
def fluid_w {γ : Type} (s : SolverState γ) : Plot × γ := (Plot.w, s.fields)

/-- State of the compute-process loop (exampleGUI.py lines 127-203):
the Python locals `on`, `start`, `plot`, `i`, the solver-module state, the
fluid object's `re` attribute (`air.re`), the displayed array `V` with the
contour range `r`, the channel, plus observables: the list of save-file
indices written by `plt.savefig('figN.jpg')`, the iteration numbers at which
the hot-path cadence redraw fired, and a count of the redraws forced by the
reset handler. -/
structure LoopState (γ : Type) : Type where
  onFlag : Bool
  start : Bool
  plot : Plot
  i : Nat
  solver : SolverState γ
  airRe : Int
  V : Plot × γ
  r : RangeSpec
  chan : Channel
  saved : List Nat
  hotRedraws : List Nat
  resetDraws : Nat
deriving DecidableEq, Repr

/-- Embeds lines 170-171 of the inner loop: `method.step()` then `i += 1`. -/
def stepAndCount {γ : Type} (ops : SolverOps γ) (s : LoopState γ) : LoopState γ :=
  { s with solver := MACSolver_step ops s.solver, i := s.i + 1 }

/-- Embeds the redraw body at lines 173-187: `plt.clf()`, select the range
and the solver accessor by the current `plot`, `contourf`, `plt.draw()`.
The iteration number is appended to the hot-redraw log. -/
def redrawCurrent {γ : Type} (s : LoopState γ) : LoopState γ :=
  match s.plot with
  | Plot.u => { s with r := RangeSpec.vel60, V := fluid_u s.solver,
                       hotRedraws := s.hotRedraws ++ [s.i] }
  | Plot.v => { s with r := RangeSpec.vel60, V := fluid_v s.solver,
                       hotRedraws := s.hotRedraws ++ [s.i] }
  | Plot.p => { s with r := RangeSpec.pres40, V := fluid_p s.solver,
                       hotRedraws := s.hotRedraws ++ [s.i] }
  | Plot.w => { s with r := RangeSpec.vort60, V := fluid_w s.solver,
                       hotRedraws := s.hotRedraws ++ [s.i] }

/-- Embeds line 172: `if i%100 == 0:` guard around the redraw body. -/
def cadenceRedraw {γ : Type} (s : LoopState γ) : LoopState γ :=
  if s.i % 100 == 0 then redrawCurrent s else s

/-- Embeds the tag-11 poll (lines 190-192): if a Reynolds update is pending,
receive one value and apply `air.setRe`. -/
def pollRe {γ : Type} (s : LoopState γ) : LoopState γ :=
  match s.chan.q11 with
  | [] => s
  | n :: rest => { s with chan := { s.chan with q11 := rest }, solver := setRe s.solver n }

/-- Embeds the tag-12 poll (lines 144-145 and 195-196): if a run-control
message is pending, receive it into `start`. -/
def pollStart {γ : Type} (s : LoopState γ) : LoopState γ :=
  match s.chan.q12 with
  | [] => s
  | b :: rest => { s with chan := { s.chan with q12 := rest }, start := b }

/-- Embeds the tag-13 poll (lines 153-154 and 199-200): if a quit message is
pending, receive its payload directly into `on`. -/
def pollQuit {γ : Type} (s : LoopState γ) : LoopState γ :=
  match s.chan.q13 with
  | [] => s
  | b :: rest => { s with chan := { s.chan with q13 := rest }, onFlag := b }

/-- Embeds the tag-25 poll (lines 147-148 and 202-203): if a field-selection
message is pending, receive it into `plot`. -/
def pollPlot {γ : Type} (s : LoopState γ) : LoopState γ :=
  match s.chan.q25 with
  | [] => s
  | pl :: rest => { s with chan := { s.chan with q25 := rest }, plot := pl }

/-- Embeds the body of the tag-14 reset handler (lines 159-163): when the
received flag is true, call `method.reset()`, recompute `V = air.u()`,
`contourf` with the current range, and `plt.draw()` (counted in
`resetDraws`). -/
def applyResetMsg {γ : Type} (ops : SolverOps γ) (s : LoopState γ) (flag : Bool) : LoopState γ :=
  if flag then
    let solver := MACSolver_reset ops s.solver
    { s with solver := solver, V := fluid_u solver, resetDraws := s.resetDraws + 1 }
  else s

/-- Embeds the tag-14 poll (lines 157-163): receive the reset flag if
pending, then run the handler body. -/
def pollReset {γ : Type} (ops : SolverOps γ) (s : LoopState γ) : LoopState γ :=
  match s.chan.q14 with
  | [] => s
  | b :: rest => applyResetMsg ops { s with chan := { s.chan with q14 := rest } } b

/-- Embeds the tag-44 poll (lines 166-167): if a save request is pending,
`plt.savefig('fig%d.jpg' % i)`.  Note the source only probes — it never
receives the message, so the queue is left untouched. -/
def pollSave {γ : Type} (s : LoopState γ) : LoopState γ :=
  match s.chan.q44 with
  | [] => s
  | _ :: _ => { s with saved := s.saved ++ [s.i] }

/-- Embeds line 150: `i = 0` at the top of every outer-loop cycle. -/
def setIZero {γ : Type} (s : LoopState γ) : LoopState γ := { s with i := 0 }

/-- Embeds one pass of the outer-loop poll sequence (lines 144-167), in
source order: tag 12, tag 25, `i = 0`, tag 13, tag 14, tag 44. -/
def outerPolls {γ : Type} (ops : SolverOps γ) (s : LoopState γ) : LoopState γ :=
  pollSave (pollReset ops (pollQuit (setIZero (pollPlot (pollStart s)))))

/-- Embeds one iteration of the inner `while start:` loop body (lines
170-203), in source order: `method.step()`, `i += 1`, the cadence redraw,
then the polls for tags 11, 12, 13, 25. -/
def innerIter {γ : Type} (ops : SolverOps γ) (s : LoopState γ) : LoopState γ :=
  pollPlot (pollQuit (pollStart (pollRe (cadenceRedraw (stepAndCount ops s)))))

/-- The inner `while start:` loop (line 169), run with fuel: iterate the
body while `start` holds, up to `fuel` iterations. -/
def runInner {γ : Type} (ops : SolverOps γ) : Nat → LoopState γ → LoopState γ
  | 0, s => s
  | Nat.succ n, s => if s.start then runInner ops n (innerIter ops s) else s

/-- One full iteration of the outer `while on:` loop (lines 143-203): the
outer polls followed by the inner loop run with the given fuel. -/
def outerCycle {γ : Type} (ops : SolverOps γ) (fuel : Nat) (s : LoopState γ) : LoopState γ :=
  runInner ops fuel (outerPolls ops s)

/-- The outer `while on:` loop (line 143), run with fuel: iterate full outer
cycles while `on` holds. -/
def runLoop {γ : Type} (ops : SolverOps γ) (innerFuel : Nat) : Nat → LoopState γ → LoopState γ
  | 0, s => s
  | Nat.succ n, s => if s.onFlag then runLoop ops innerFuel n (outerCycle ops innerFuel s) else s

/-- Embeds the compute-process startup (lines 127-142): domain and
`fluid(square, re=100)` construction (which sets both `air.re` and `dim.re`
to 100), `MACSolver` construction, the initial `V = air.u()` display with
range `linspace(-1,1,100)`, and the loop flags `on = True`, `start = False`,
`plot = 'u'`.  `g0` is the arbitrary pre-initialization field data. -/
def initState {γ : Type} (ops : SolverOps γ) (g0 : γ) : LoopState γ :=
  let solver := MACSolver_init ops { fields := g0, re := 100, t := 0, dt := 0 }
  { onFlag := true, start := false, plot := Plot.u, i := 0,
    solver := solver, airRe := 100,
    V := fluid_u solver, r := RangeSpec.init100,
    chan := emptyChan, saved := [], hotRedraws := [], resetDraws := 0 }

/-- Embeds `App.quitIt` (exampleGUI.py lines 82-88): the message it sends is
`comm.isend(obj=False, dest=0, tag=13)` — tag 13, payload `False`. -/
def App_quitIt : Nat × Bool := (13, false)

/-- The iteration numbers at which the hot-path cadence fires during `n`
inner iterations starting from counter value `i0`: iteration `i0 + k + 1`
is logged when it is divisible by 100. -/
def redrawList (i0 : Nat) : Nat → List Nat
  | 0 => []
  | Nat.succ n => (if (i0 + 1) % 100 == 0 then [i0 + 1] else []) ++ redrawList (i0 + 1) n

/-- A concrete instantiation of the opaque solver operations over `Int`
field data, used for concrete executions: the operations are injective
enough to distinguish the states the claims talk about. -/
def opsC : SolverOps Int :=
  { zero := 0
    ghost := fun f => f + 1
    lid := fun f => f + 2
    tstep := fun f re => f + re
    advance := fun f re dt => f + re + dt }


/-- The protocol-visible core of the loop state: the spec's SimulationState
(alive flag, running flag, selected field, iteration counter), the solver
state, the fluid attribute, the displayed array and range, and the channel —
everything except the event logs (saved-file and redraw histories). -/
structure CoreState (γ : Type) : Type where
  onFlag : Bool
  start : Bool
  plot : Plot
  i : Nat
  solver : SolverState γ
  airRe : Int
  V : Plot × γ
  r : RangeSpec
  chan : Channel
deriving DecidableEq, Repr

/-- Projection of a loop state onto its protocol-visible core. -/
def coreOf {γ : Type} (s : LoopState γ) : CoreState γ :=
  { onFlag := s.onFlag, start := s.start, plot := s.plot, i := s.i,
    solver := s.solver, airRe := s.airRe, V := s.V, r := s.r, chan := s.chan }

/-- Startup state with a `QuitRequest` (payload `False`, as `App.quitIt`
sends) pending on tag 13 while the loop is Running. -/
def sC1 : LoopState Int :=
  { initState opsC 0 with start := true, chan := { emptyChan with q13 := [false] } }

/-- Startup state (fluid constructed with `re=100`) Running, with
`ReynoldsUpdate(200)` pending on tag 11. -/
def sC2 : LoopState Int :=
  { initState opsC 0 with start := true, chan := { emptyChan with q11 := [200] } }

/-- Startup state, Idle, with `ReynoldsUpdate(500)` pending on tag 11. -/
def sC3 : LoopState Int :=
  { initState opsC 0 with chan := { emptyChan with q11 := [500] } }

/-- Startup state, Idle, with the pressure field selected for display and a
`ResetRequest(True)` pending on tag 14. -/
def sC4 : LoopState Int :=
  { initState opsC 0 with plot := Plot.p, chan := { emptyChan with q14 := [true] } }

/-- Startup state, Idle, with two `SaveRequest` messages pending on
tag 44. -/
def sC5 : LoopState Int :=
  { initState opsC 0 with chan := { emptyChan with q44 := ["1", "1"] } }

/-- A Running state whose iteration counter has reached 7, with
`RunControl(False)` pending on tag 12. -/
def sC6 : LoopState Int :=
  { initState opsC 0 with start := true, i := 7, chan := { emptyChan with q12 := [false] } }

/-- Startup state switched to Running with no pending messages. -/
def sC7 : LoopState Int :=
  { initState opsC 0 with start := true }

/-- Startup state with a quit-tag message carrying payload `True` pending on
tag 13. -/
def sC9 : LoopState Int :=
  { initState opsC 0 with chan := { emptyChan with q13 := [true] } }


lemma pollRe_nil {γ : Type} (s : LoopState γ) (h : s.chan.q11 = []) : pollRe s = s := by
  unfold pollRe; rw [h]

lemma pollStart_nil {γ : Type} (s : LoopState γ) (h : s.chan.q12 = []) : pollStart s = s := by
  unfold pollStart; rw [h]

lemma pollQuit_nil {γ : Type} (s : LoopState γ) (h : s.chan.q13 = []) : pollQuit s = s := by
  unfold pollQuit; rw [h]

lemma pollPlot_nil {γ : Type} (s : LoopState γ) (h : s.chan.q25 = []) : pollPlot s = s := by
  unfold pollPlot; rw [h]

lemma pollRe_cons {γ : Type} (s : LoopState γ) (n : Int) (rest : List Int)
    (h : s.chan.q11 = n :: rest) :
    pollRe s = { s with chan := { s.chan with q11 := rest }, solver := setRe s.solver n } := by
  unfold pollRe; rw [h]

lemma pollStart_cons {γ : Type} (s : LoopState γ) (b : Bool) (rest : List Bool)
    (h : s.chan.q12 = b :: rest) :
    pollStart s = { s with chan := { s.chan with q12 := rest }, start := b } := by
  unfold pollStart; rw [h]

lemma pollQuit_cons {γ : Type} (s : LoopState γ) (b : Bool) (rest : List Bool)
    (h : s.chan.q13 = b :: rest) :
    pollQuit s = { s with chan := { s.chan with q13 := rest }, onFlag := b } := by
  unfold pollQuit; rw [h]

lemma pollPlot_cons {γ : Type} (s : LoopState γ) (pl : Plot) (rest : List Plot)
    (h : s.chan.q25 = pl :: rest) :
    pollPlot s = { s with chan := { s.chan with q25 := rest }, plot := pl } := by
  unfold pollPlot; rw [h]

lemma redrawCurrent_spec {γ : Type} (s : LoopState γ) :
    (redrawCurrent s).chan = s.chan ∧ (redrawCurrent s).start = s.start ∧
    (redrawCurrent s).onFlag = s.onFlag ∧ (redrawCurrent s).i = s.i ∧
    (redrawCurrent s).solver = s.solver ∧ (redrawCurrent s).airRe = s.airRe ∧
    (redrawCurrent s).saved = s.saved ∧ (redrawCurrent s).resetDraws = s.resetDraws ∧
    (redrawCurrent s).plot = s.plot ∧
    (redrawCurrent s).hotRedraws = s.hotRedraws ++ [s.i] := by
  unfold redrawCurrent; cases hp : s.plot <;> simp

lemma cadenceRedraw_spec {γ : Type} (s : LoopState γ) :
    (cadenceRedraw s).chan = s.chan ∧ (cadenceRedraw s).start = s.start ∧
    (cadenceRedraw s).onFlag = s.onFlag ∧ (cadenceRedraw s).i = s.i ∧
    (cadenceRedraw s).solver = s.solver ∧ (cadenceRedraw s).airRe = s.airRe ∧
    (cadenceRedraw s).saved = s.saved ∧ (cadenceRedraw s).resetDraws = s.resetDraws ∧
    (cadenceRedraw s).plot = s.plot ∧
    (cadenceRedraw s).hotRedraws =
      s.hotRedraws ++ (if s.i % 100 == 0 then [s.i] else []) := by
  unfold cadenceRedraw
  by_cases h : s.i % 100 == 0
  · simp only [h, if_true]
    exact redrawCurrent_spec s
  · simp [h]

lemma innerIter_of_empty {γ : Type} (ops : SolverOps γ) (s : LoopState γ)
    (hc : s.chan = emptyChan) :
    innerIter ops s = cadenceRedraw (stepAndCount ops s) := by
  have hchan : (cadenceRedraw (stepAndCount ops s)).chan = emptyChan := by
    rw [(cadenceRedraw_spec _).1]; exact hc
  unfold innerIter
  rw [pollRe_nil _ (by rw [hchan]; rfl)]
  rw [pollStart_nil _ (by rw [hchan]; rfl)]
  rw [pollQuit_nil _ (by rw [hchan]; rfl)]
  rw [pollPlot_nil _ (by rw [hchan]; rfl)]

lemma innerIter_empty_spec {γ : Type} (ops : SolverOps γ) (s : LoopState γ)
    (hc : s.chan = emptyChan) :
    (innerIter ops s).chan = emptyChan ∧ (innerIter ops s).start = s.start ∧
    (innerIter ops s).onFlag = s.onFlag ∧ (innerIter ops s).i = s.i + 1 ∧
    (innerIter ops s).hotRedraws =
      s.hotRedraws ++ (if (s.i + 1) % 100 == 0 then [s.i + 1] else []) := by
  rw [innerIter_of_empty ops s hc]
  obtain ⟨h1, h2, h3, h4, _, _, _, _, _, h10⟩ := cadenceRedraw_spec (stepAndCount ops s)
  refine ⟨by rw [h1]; exact hc, by rw [h2]; rfl, by rw [h3]; rfl, by rw [h4]; rfl,
    by rw [h10]; rfl⟩

lemma runInner_of_not_start {γ : Type} (ops : SolverOps γ) (fuel : Nat) (s : LoopState γ)
    (h : s.start = false) : runInner ops fuel s = s := by
  cases fuel with
  | zero => rfl
  | succ n => unfold runInner; rw [h]; rfl

lemma runInner_empty {γ : Type} (ops : SolverOps γ) (n : Nat) (s : LoopState γ)
    (hc : s.chan = emptyChan) (hs : s.start = true) :
    (runInner ops n s).chan = emptyChan ∧ (runInner ops n s).start = true ∧
    (runInner ops n s).onFlag = s.onFlag ∧ (runInner ops n s).i = s.i + n ∧
    (runInner ops n s).hotRedraws = s.hotRedraws ++ redrawList s.i n := by
  induction n generalizing s with
  | zero => exact ⟨hc, hs, rfl, by simp [runInner], by simp [runInner, redrawList]⟩
  | succ n ih =>
    obtain ⟨g1, g2, g3, g4, g5⟩ := innerIter_empty_spec ops s hc
    obtain ⟨k1, k2, k3, k4, k5⟩ := ih (innerIter ops s) g1 (g2.trans hs)
    unfold runInner
    rw [hs]
    simp only [if_true]
    refine ⟨k1, k2, by rw [k3, g3], ?_, ?_⟩
    · rw [k4, g4]; omega
    · rw [k5, g5, g4, redrawList, List.append_assoc]


lemma pollRe_onFlag {γ : Type} (s : LoopState γ) : (pollRe s).onFlag = s.onFlag := by
  unfold pollRe; cases hq : s.chan.q11 <;> simp [hq]

lemma pollRe_start {γ : Type} (s : LoopState γ) : (pollRe s).start = s.start := by
  unfold pollRe; cases hq : s.chan.q11 <;> simp [hq]

lemma pollRe_plot {γ : Type} (s : LoopState γ) : (pollRe s).plot = s.plot := by
  unfold pollRe; cases hq : s.chan.q11 <;> simp [hq]

lemma pollRe_i {γ : Type} (s : LoopState γ) : (pollRe s).i = s.i := by
  unfold pollRe; cases hq : s.chan.q11 <;> simp [hq]

lemma pollRe_airRe {γ : Type} (s : LoopState γ) : (pollRe s).airRe = s.airRe := by
  unfold pollRe; cases hq : s.chan.q11 <;> simp [hq]

lemma pollRe_V {γ : Type} (s : LoopState γ) : (pollRe s).V = s.V := by
  unfold pollRe; cases hq : s.chan.q11 <;> simp [hq]

lemma pollRe_r {γ : Type} (s : LoopState γ) : (pollRe s).r = s.r := by
  unfold pollRe; cases hq : s.chan.q11 <;> simp [hq]

lemma pollRe_saved {γ : Type} (s : LoopState γ) : (pollRe s).saved = s.saved := by
  unfold pollRe; cases hq : s.chan.q11 <;> simp [hq]

lemma pollRe_hotRedraws {γ : Type} (s : LoopState γ) : (pollRe s).hotRedraws = s.hotRedraws := by
  unfold pollRe; cases hq : s.chan.q11 <;> simp [hq]

lemma pollRe_resetDraws {γ : Type} (s : LoopState γ) : (pollRe s).resetDraws = s.resetDraws := by
  unfold pollRe; cases hq : s.chan.q11 <;> simp [hq]

lemma pollRe_q12 {γ : Type} (s : LoopState γ) : (pollRe s).chan.q12 = s.chan.q12 := by
  unfold pollRe; cases hq : s.chan.q11 <;> simp [hq]

lemma pollRe_q13 {γ : Type} (s : LoopState γ) : (pollRe s).chan.q13 = s.chan.q13 := by
  unfold pollRe; cases hq : s.chan.q11 <;> simp [hq]

lemma pollRe_q14 {γ : Type} (s : LoopState γ) : (pollRe s).chan.q14 = s.chan.q14 := by
  unfold pollRe; cases hq : s.chan.q11 <;> simp [hq]

lemma pollRe_q25 {γ : Type} (s : LoopState γ) : (pollRe s).chan.q25 = s.chan.q25 := by
  unfold pollRe; cases hq : s.chan.q11 <;> simp [hq]

lemma pollRe_q44 {γ : Type} (s : LoopState γ) : (pollRe s).chan.q44 = s.chan.q44 := by
  unfold pollRe; cases hq : s.chan.q11 <;> simp [hq]

lemma pollStart_onFlag {γ : Type} (s : LoopState γ) : (pollStart s).onFlag = s.onFlag := by
  unfold pollStart; cases hq : s.chan.q12 <;> simp [hq]

lemma pollStart_plot {γ : Type} (s : LoopState γ) : (pollStart s).plot = s.plot := by
  unfold pollStart; cases hq : s.chan.q12 <;> simp [hq]

lemma pollStart_i {γ : Type} (s : LoopState γ) : (pollStart s).i = s.i := by
  unfold pollStart; cases hq : s.chan.q12 <;> simp [hq]

lemma pollStart_solver {γ : Type} (s : LoopState γ) : (pollStart s).solver = s.solver := by
  unfold pollStart; cases hq : s.chan.q12 <;> simp [hq]

lemma pollStart_airRe {γ : Type} (s : LoopState γ) : (pollStart s).airRe = s.airRe := by
  unfold pollStart; cases hq : s.chan.q12 <;> simp [hq]

lemma pollStart_V {γ : Type} (s : LoopState γ) : (pollStart s).V = s.V := by
  unfold pollStart; cases hq : s.chan.q12 <;> simp [hq]

lemma pollStart_r {γ : Type} (s : LoopState γ) : (pollStart s).r = s.r := by
  unfold pollStart; cases hq : s.chan.q12 <;> simp [hq]

lemma pollStart_saved {γ : Type} (s : LoopState γ) : (pollStart s).saved = s.saved := by
  unfold pollStart; cases hq : s.chan.q12 <;> simp [hq]

lemma pollStart_hotRedraws {γ : Type} (s : LoopState γ) : (pollStart s).hotRedraws = s.hotRedraws := by
  unfold pollStart; cases hq : s.chan.q12 <;> simp [hq]

lemma pollStart_resetDraws {γ : Type} (s : LoopState γ) : (pollStart s).resetDraws = s.resetDraws := by
  unfold pollStart; cases hq : s.chan.q12 <;> simp [hq]

lemma pollStart_q11 {γ : Type} (s : LoopState γ) : (pollStart s).chan.q11 = s.chan.q11 := by
  unfold pollStart; cases hq : s.chan.q12 <;> simp [hq]

lemma pollStart_q13 {γ : Type} (s : LoopState γ) : (pollStart s).chan.q13 = s.chan.q13 := by
  unfold pollStart; cases hq : s.chan.q12 <;> simp [hq]

lemma pollStart_q14 {γ : Type} (s : LoopState γ) : (pollStart s).chan.q14 = s.chan.q14 := by
  unfold pollStart; cases hq : s.chan.q12 <;> simp [hq]

lemma pollStart_q25 {γ : Type} (s : LoopState γ) : (pollStart s).chan.q25 = s.chan.q25 := by
  unfold pollStart; cases hq : s.chan.q12 <;> simp [hq]

lemma pollStart_q44 {γ : Type} (s : LoopState γ) : (pollStart s).chan.q44 = s.chan.q44 := by
  unfold pollStart; cases hq : s.chan.q12 <;> simp [hq]

lemma pollQuit_start {γ : Type} (s : LoopState γ) : (pollQuit s).start = s.start := by
  unfold pollQuit; cases hq : s.chan.q13 <;> simp [hq]

lemma pollQuit_plot {γ : Type} (s : LoopState γ) : (pollQuit s).plot = s.plot := by
  unfold pollQuit; cases hq : s.chan.q13 <;> simp [hq]

lemma pollQuit_i {γ : Type} (s : LoopState γ) : (pollQuit s).i = s.i := by
  unfold pollQuit; cases hq : s.chan.q13 <;> simp [hq]

lemma pollQuit_solver {γ : Type} (s : LoopState γ) : (pollQuit s).solver = s.solver := by
  unfold pollQuit; cases hq : s.chan.q13 <;> simp [hq]

lemma pollQuit_airRe {γ : Type} (s : LoopState γ) : (pollQuit s).airRe = s.airRe := by
  unfold pollQuit; cases hq : s.chan.q13 <;> simp [hq]

lemma pollQuit_V {γ : Type} (s : LoopState γ) : (pollQuit s).V = s.V := by
  unfold pollQuit; cases hq : s.chan.q13 <;> simp [hq]

lemma pollQuit_r {γ : Type} (s : LoopState γ) : (pollQuit s).r = s.r := by
  unfold pollQuit; cases hq : s.chan.q13 <;> simp [hq]

lemma pollQuit_saved {γ : Type} (s : LoopState γ) : (pollQuit s).saved = s.saved := by
  unfold pollQuit; cases hq : s.chan.q13 <;> simp [hq]

lemma pollQuit_hotRedraws {γ : Type} (s : LoopState γ) : (pollQuit s).hotRedraws = s.hotRedraws := by
  unfold pollQuit; cases hq : s.chan.q13 <;> simp [hq]

lemma pollQuit_resetDraws {γ : Type} (s : LoopState γ) : (pollQuit s).resetDraws = s.resetDraws := by
  unfold pollQuit; cases hq : s.chan.q13 <;> simp [hq]

lemma pollQuit_q11 {γ : Type} (s : LoopState γ) : (pollQuit s).chan.q11 = s.chan.q11 := by
  unfold pollQuit; cases hq : s.chan.q13 <;> simp [hq]

lemma pollQuit_q12 {γ : Type} (s : LoopState γ) : (pollQuit s).chan.q12 = s.chan.q12 := by
  unfold pollQuit; cases hq : s.chan.q13 <;> simp [hq]

lemma pollQuit_q14 {γ : Type} (s : LoopState γ) : (pollQuit s).chan.q14 = s.chan.q14 := by
  unfold pollQuit; cases hq : s.chan.q13 <;> simp [hq]

lemma pollQuit_q25 {γ : Type} (s : LoopState γ) : (pollQuit s).chan.q25 = s.chan.q25 := by
  unfold pollQuit; cases hq : s.chan.q13 <;> simp [hq]

lemma pollQuit_q44 {γ : Type} (s : LoopState γ) : (pollQuit s).chan.q44 = s.chan.q44 := by
  unfold pollQuit; cases hq : s.chan.q13 <;> simp [hq]

lemma pollPlot_onFlag {γ : Type} (s : LoopState γ) : (pollPlot s).onFlag = s.onFlag := by
  unfold pollPlot; cases hq : s.chan.q25 <;> simp [hq]

lemma pollPlot_start {γ : Type} (s : LoopState γ) : (pollPlot s).start = s.start := by
  unfold pollPlot; cases hq : s.chan.q25 <;> simp [hq]

lemma pollPlot_i {γ : Type} (s : LoopState γ) : (pollPlot s).i = s.i := by
  unfold pollPlot; cases hq : s.chan.q25 <;> simp [hq]

lemma pollPlot_solver {γ : Type} (s : LoopState γ) : (pollPlot s).solver = s.solver := by
  unfold pollPlot; cases hq : s.chan.q25 <;> simp [hq]

lemma pollPlot_airRe {γ : Type} (s : LoopState γ) : (pollPlot s).airRe = s.airRe := by
  unfold pollPlot; cases hq : s.chan.q25 <;> simp [hq]

lemma pollPlot_V {γ : Type} (s : LoopState γ) : (pollPlot s).V = s.V := by
  unfold pollPlot; cases hq : s.chan.q25 <;> simp [hq]

lemma pollPlot_r {γ : Type} (s : LoopState γ) : (pollPlot s).r = s.r := by
  unfold pollPlot; cases hq : s.chan.q25 <;> simp [hq]

lemma pollPlot_saved {γ : Type} (s : LoopState γ) : (pollPlot s).saved = s.saved := by
  unfold pollPlot; cases hq : s.chan.q25 <;> simp [hq]

lemma pollPlot_hotRedraws {γ : Type} (s : LoopState γ) : (pollPlot s).hotRedraws = s.hotRedraws := by
  unfold pollPlot; cases hq : s.chan.q25 <;> simp [hq]

lemma pollPlot_resetDraws {γ : Type} (s : LoopState γ) : (pollPlot s).resetDraws = s.resetDraws := by
  unfold pollPlot; cases hq : s.chan.q25 <;> simp [hq]

lemma pollPlot_q11 {γ : Type} (s : LoopState γ) : (pollPlot s).chan.q11 = s.chan.q11 := by
  unfold pollPlot; cases hq : s.chan.q25 <;> simp [hq]

lemma pollPlot_q12 {γ : Type} (s : LoopState γ) : (pollPlot s).chan.q12 = s.chan.q12 := by
  unfold pollPlot; cases hq : s.chan.q25 <;> simp [hq]

lemma pollPlot_q13 {γ : Type} (s : LoopState γ) : (pollPlot s).chan.q13 = s.chan.q13 := by
  unfold pollPlot; cases hq : s.chan.q25 <;> simp [hq]

lemma pollPlot_q14 {γ : Type} (s : LoopState γ) : (pollPlot s).chan.q14 = s.chan.q14 := by
  unfold pollPlot; cases hq : s.chan.q25 <;> simp [hq]

lemma pollPlot_q44 {γ : Type} (s : LoopState γ) : (pollPlot s).chan.q44 = s.chan.q44 := by
  unfold pollPlot; cases hq : s.chan.q25 <;> simp [hq]

lemma pollSave_onFlag {γ : Type} (s : LoopState γ) : (pollSave s).onFlag = s.onFlag := by
  unfold pollSave; cases hq : s.chan.q44 <;> simp [hq]

lemma pollSave_start {γ : Type} (s : LoopState γ) : (pollSave s).start = s.start := by
  unfold pollSave; cases hq : s.chan.q44 <;> simp [hq]

lemma pollSave_plot {γ : Type} (s : LoopState γ) : (pollSave s).plot = s.plot := by
  unfold pollSave; cases hq : s.chan.q44 <;> simp [hq]

lemma pollSave_i {γ : Type} (s : LoopState γ) : (pollSave s).i = s.i := by
  unfold pollSave; cases hq : s.chan.q44 <;> simp [hq]

lemma pollSave_solver {γ : Type} (s : LoopState γ) : (pollSave s).solver = s.solver := by
  unfold pollSave; cases hq : s.chan.q44 <;> simp [hq]

lemma pollSave_airRe {γ : Type} (s : LoopState γ) : (pollSave s).airRe = s.airRe := by
  unfold pollSave; cases hq : s.chan.q44 <;> simp [hq]

lemma pollSave_V {γ : Type} (s : LoopState γ) : (pollSave s).V = s.V := by
  unfold pollSave; cases hq : s.chan.q44 <;> simp [hq]

lemma pollSave_r {γ : Type} (s : LoopState γ) : (pollSave s).r = s.r := by
  unfold pollSave; cases hq : s.chan.q44 <;> simp [hq]

lemma pollSave_hotRedraws {γ : Type} (s : LoopState γ) : (pollSave s).hotRedraws = s.hotRedraws := by
  unfold pollSave; cases hq : s.chan.q44 <;> simp [hq]

lemma pollSave_resetDraws {γ : Type} (s : LoopState γ) : (pollSave s).resetDraws = s.resetDraws := by
  unfold pollSave; cases hq : s.chan.q44 <;> simp [hq]

lemma pollSave_chan {γ : Type} (s : LoopState γ) : (pollSave s).chan = s.chan := by
  unfold pollSave; cases hq : s.chan.q44 <;> simp [hq]

lemma pollReset_onFlag {γ : Type} (ops : SolverOps γ) (s : LoopState γ) :
    (pollReset ops s).onFlag = s.onFlag := by
  unfold pollReset applyResetMsg
  cases hq : s.chan.q14 with
  | nil => simp [hq]
  | cons b rest => cases b <;> simp [hq]

lemma pollReset_start {γ : Type} (ops : SolverOps γ) (s : LoopState γ) :
    (pollReset ops s).start = s.start := by
  unfold pollReset applyResetMsg
  cases hq : s.chan.q14 with
  | nil => simp [hq]
  | cons b rest => cases b <;> simp [hq]

lemma pollReset_plot {γ : Type} (ops : SolverOps γ) (s : LoopState γ) :
    (pollReset ops s).plot = s.plot := by
  unfold pollReset applyResetMsg
  cases hq : s.chan.q14 with
  | nil => simp [hq]
  | cons b rest => cases b <;> simp [hq]

lemma pollReset_i {γ : Type} (ops : SolverOps γ) (s : LoopState γ) :
    (pollReset ops s).i = s.i := by
  unfold pollReset applyResetMsg
  cases hq : s.chan.q14 with
  | nil => simp [hq]
  | cons b rest => cases b <;> simp [hq]

lemma pollReset_airRe {γ : Type} (ops : SolverOps γ) (s : LoopState γ) :
    (pollReset ops s).airRe = s.airRe := by
  unfold pollReset applyResetMsg
  cases hq : s.chan.q14 with
  | nil => simp [hq]
  | cons b rest => cases b <;> simp [hq]

lemma pollReset_r {γ : Type} (ops : SolverOps γ) (s : LoopState γ) :
    (pollReset ops s).r = s.r := by
  unfold pollReset applyResetMsg
  cases hq : s.chan.q14 with
  | nil => simp [hq]
  | cons b rest => cases b <;> simp [hq]

lemma pollReset_saved {γ : Type} (ops : SolverOps γ) (s : LoopState γ) :
    (pollReset ops s).saved = s.saved := by
  unfold pollReset applyResetMsg
  cases hq : s.chan.q14 with
  | nil => simp [hq]
  | cons b rest => cases b <;> simp [hq]

lemma pollReset_hotRedraws {γ : Type} (ops : SolverOps γ) (s : LoopState γ) :
    (pollReset ops s).hotRedraws = s.hotRedraws := by
  unfold pollReset applyResetMsg
  cases hq : s.chan.q14 with
  | nil => simp [hq]
  | cons b rest => cases b <;> simp [hq]

lemma pollReset_q11 {γ : Type} (ops : SolverOps γ) (s : LoopState γ) :
    (pollReset ops s).chan.q11 = s.chan.q11 := by
  unfold pollReset applyResetMsg
  cases hq : s.chan.q14 with
  | nil => simp [hq]
  | cons b rest => cases b <;> simp [hq]

lemma pollReset_q12 {γ : Type} (ops : SolverOps γ) (s : LoopState γ) :
    (pollReset ops s).chan.q12 = s.chan.q12 := by
  unfold pollReset applyResetMsg
  cases hq : s.chan.q14 with
  | nil => simp [hq]
  | cons b rest => cases b <;> simp [hq]

lemma pollReset_q13 {γ : Type} (ops : SolverOps γ) (s : LoopState γ) :
    (pollReset ops s).chan.q13 = s.chan.q13 := by
  unfold pollReset applyResetMsg
  cases hq : s.chan.q14 with
  | nil => simp [hq]
  | cons b rest => cases b <;> simp [hq]

lemma pollReset_q25 {γ : Type} (ops : SolverOps γ) (s : LoopState γ) :
    (pollReset ops s).chan.q25 = s.chan.q25 := by
  unfold pollReset applyResetMsg
  cases hq : s.chan.q14 with
  | nil => simp [hq]
  | cons b rest => cases b <;> simp [hq]

lemma pollReset_q44 {γ : Type} (ops : SolverOps γ) (s : LoopState γ) :
    (pollReset ops s).chan.q44 = s.chan.q44 := by
  unfold pollReset applyResetMsg
  cases hq : s.chan.q14 with
  | nil => simp [hq]
  | cons b rest => cases b <;> simp [hq]

lemma pollReset_re {γ : Type} (ops : SolverOps γ) (s : LoopState γ) :
    (pollReset ops s).solver.re = s.solver.re := by
  unfold pollReset applyResetMsg
  cases hq : s.chan.q14 with
  | nil => simp [hq]
  | cons b rest =>
    cases b <;>
      simp [hq, MACSolver_reset, calctstep, lidcondition, ghostcondition, initzero]

lemma setIZero_chan {γ : Type} (s : LoopState γ) : (setIZero s).chan = s.chan := rfl

lemma setIZero_solver {γ : Type} (s : LoopState γ) : (setIZero s).solver = s.solver := rfl

lemma setIZero_i {γ : Type} (s : LoopState γ) : (setIZero s).i = 0 := rfl

lemma setIZero_resetDraws {γ : Type} (s : LoopState γ) :
    (setIZero s).resetDraws = s.resetDraws := rfl

lemma setIZero_saved {γ : Type} (s : LoopState γ) : (setIZero s).saved = s.saved := rfl

lemma setIZero_start {γ : Type} (s : LoopState γ) : (setIZero s).start = s.start := rfl

lemma setIZero_onFlag {γ : Type} (s : LoopState γ) : (setIZero s).onFlag = s.onFlag := rfl

lemma setIZero_V {γ : Type} (s : LoopState γ) : (setIZero s).V = s.V := rfl

lemma outerPolls_i {γ : Type} (ops : SolverOps γ) (s : LoopState γ) :
    (outerPolls ops s).i = 0 := by
  unfold outerPolls
  rw [pollSave_i, pollReset_i, pollQuit_i, setIZero_i]

lemma outerPolls_q11 {γ : Type} (ops : SolverOps γ) (s : LoopState γ) :
    (outerPolls ops s).chan.q11 = s.chan.q11 := by
  unfold outerPolls
  rw [pollSave_chan, pollReset_q11, pollQuit_q11, setIZero_chan, pollPlot_q11, pollStart_q11]

lemma outerPolls_re {γ : Type} (ops : SolverOps γ) (s : LoopState γ) :
    (outerPolls ops s).solver.re = s.solver.re := by
  unfold outerPolls
  rw [pollSave_solver, pollReset_re, pollQuit_solver, setIZero_solver, pollPlot_solver,
    pollStart_solver]

lemma cadStep_chan {γ : Type} (ops : SolverOps γ) (s : LoopState γ) :
    (cadenceRedraw (stepAndCount ops s)).chan = s.chan := by
  rw [(cadenceRedraw_spec _).1]; rfl

lemma innerIter_q14 {γ : Type} (ops : SolverOps γ) (s : LoopState γ) :
    (innerIter ops s).chan.q14 = s.chan.q14 := by
  unfold innerIter
  rw [pollPlot_q14, pollQuit_q14, pollStart_q14, pollRe_q14, cadStep_chan]

lemma innerIter_q44 {γ : Type} (ops : SolverOps γ) (s : LoopState γ) :
    (innerIter ops s).chan.q44 = s.chan.q44 := by
  unfold innerIter
  rw [pollPlot_q44, pollQuit_q44, pollStart_q44, pollRe_q44, cadStep_chan]

lemma innerIter_re_of_q11 {γ : Type} (ops : SolverOps γ) (s : LoopState γ)
    (n : Int) (rest : List Int) (h : s.chan.q11 = n :: rest) :
    (innerIter ops s).solver.re = n ∧ (innerIter ops s).chan.q11 = rest := by
  have h1 : (cadenceRedraw (stepAndCount ops s)).chan.q11 = n :: rest := by
    rw [cadStep_chan]; exact h
  unfold innerIter
  constructor
  · rw [pollPlot_solver, pollQuit_solver, pollStart_solver, pollRe_cons _ n rest h1]
    simp [setRe]
  · rw [pollPlot_q11, pollQuit_q11, pollStart_q11, pollRe_cons _ n rest h1]

lemma innerIter_start_of_q12 {γ : Type} (ops : SolverOps γ) (s : LoopState γ)
    (b : Bool) (rest : List Bool) (h : s.chan.q12 = b :: rest) :
    (innerIter ops s).start = b := by
  have h1 : (pollRe (cadenceRedraw (stepAndCount ops s))).chan.q12 = b :: rest := by
    rw [pollRe_q12, cadStep_chan]; exact h
  unfold innerIter
  rw [pollPlot_start, pollQuit_start, pollStart_cons _ b rest h1]

lemma pollReset_cons_true {γ : Type} (ops : SolverOps γ) (s : LoopState γ) (rest : List Bool)
    (h : s.chan.q14 = true :: rest) :
    pollReset ops s =
      { s with chan := { s.chan with q14 := rest },
               solver := MACSolver_reset ops s.solver,
               V := fluid_u (MACSolver_reset ops s.solver),
               resetDraws := s.resetDraws + 1 } := by
  unfold pollReset applyResetMsg
  rw [h]
  simp

lemma outerPolls_reset_true {γ : Type} (ops : SolverOps γ) (s : LoopState γ) (rest : List Bool)
    (h : s.chan.q14 = true :: rest) :
    (outerPolls ops s).solver = MACSolver_reset ops s.solver ∧
    (outerPolls ops s).V = fluid_u (MACSolver_reset ops s.solver) ∧
    (outerPolls ops s).resetDraws = s.resetDraws + 1 := by
  have hq14 : (pollQuit (setIZero (pollPlot (pollStart s)))).chan.q14 = true :: rest := by
    rw [pollQuit_q14, setIZero_chan, pollPlot_q14, pollStart_q14]; exact h
  unfold outerPolls
  refine ⟨?_, ?_, ?_⟩
  · rw [pollSave_solver, pollReset_cons_true ops _ rest hq14]
    simp
    rw [pollQuit_solver, setIZero_solver, pollPlot_solver, pollStart_solver]
  · rw [pollSave_V, pollReset_cons_true ops _ rest hq14]
    simp
    rw [pollQuit_solver, setIZero_solver, pollPlot_solver, pollStart_solver]
  · rw [pollSave_resetDraws, pollReset_cons_true ops _ rest hq14]
    simp
    rw [pollQuit_resetDraws, setIZero_resetDraws, pollPlot_resetDraws, pollStart_resetDraws]

/-- C10: `MACSolver.reset` performs exactly the four calls `initzero;
ghostcondition; lidcondition; calctstep` — the same sequence as construction
— but unlike `MACSolver.__init__` it does not assign `dim.t = 0`: reset
leaves the time accumulator unchanged, while construction is reset preceded
by zeroing `dim.t`, so construction ends with `dim.t = 0`. -/
theorem C10_reset_vs_init_time {γ : Type} (ops : SolverOps γ) (s : SolverState γ) :
    (MACSolver_reset ops s).t = s.t ∧ (MACSolver_init ops s).t = 0 ∧
    MACSolver_init ops s = MACSolver_reset ops { s with t := 0 } :=
  ⟨rfl, rfl, rfl⟩

/-- C8: applying the tag-14 reset handler twice in succession, with no
solver step in between, yields the same protocol-visible state (loop flags,
selected field, iteration counter, solver state, fluid attribute, displayed
array and range, channel) as applying it once: reset is idempotent. -/
theorem C8_reset_idempotent {γ : Type} (ops : SolverOps γ) (s : LoopState γ) :
    coreOf (applyResetMsg ops (applyResetMsg ops s true) true) =
      coreOf (applyResetMsg ops s true) := rfl

/-- C9: the tag-13 quit poll assigns the received boolean payload directly
to the `on` flag; `App.quitIt` always sends payload `False` on tag 13, and a
quit message with payload `True` leaves the alive flag `true`, so the loop
would continue. -/
theorem C9_quit_payload_direct {γ : Type} (s : LoopState γ) (b : Bool) (rest : List Bool)
    (h : s.chan.q13 = b :: rest) :
    (pollQuit s).onFlag = b ∧ App_quitIt = (13, false) ∧
    (b = true → (pollQuit s).onFlag = true) := by
  rw [pollQuit_cons s b rest h]
  exact ⟨rfl, rfl, fun hb => hb⟩

/-- Witness for C9 at a concrete input: a pending quit message with payload
`True` leaves the alive flag `true`. -/
theorem C9_quit_payload_witness :
    sC9.chan.q13 = [true] ∧
    ((pollQuit sC9).onFlag = true ∧ App_quitIt = (13, false) ∧
     (true = true → (pollQuit sC9).onFlag = true)) :=
  ⟨rfl, C9_quit_payload_direct sC9 true [] rfl⟩

/-- C2 counterexample: with the fluid constructed at `re=100` and
`ReynoldsUpdate(200)` pending, one tag-11 poll sets the solver-module value
`dim.re` to 200 but leaves the fluid object's stored attribute at 100, so
the claim that both equal the update value is false. -/
theorem C2_fluid_re_not_updated :
    (pollRe sC2).solver.re = 200 ∧ (pollRe sC2).airRe = 100 ∧
    ¬ ((pollRe sC2).airRe = 200 ∧ (pollRe sC2).solver.re = 200) := by decide

/-- C2 (amended): for `ReynoldsUpdate(n)` with n in [100,10000], one tag-11
poll that drains it sets the Solver's stored Reynolds number (the
solver-module value `dim.re`) to n, but leaves the fluid object's stored
attribute `re` unchanged, because `fluid.setRe` writes only `dim.re`. -/
theorem C2_reynolds_update_amended {γ : Type} (s : LoopState γ) (n : Int) (rest : List Int)
    (_hlo : 100 ≤ n) (_hhi : n ≤ 10000) (h : s.chan.q11 = n :: rest) :
    (pollRe s).solver.re = n ∧ (pollRe s).airRe = s.airRe ∧ (pollRe s).chan.q11 = rest := by
  rw [pollRe_cons s n rest h]
  exact ⟨rfl, rfl, rfl⟩

/-- Witness for the amended C2 at a concrete input. -/
theorem C2_reynolds_update_witness :
    (100 : Int) ≤ 200 ∧ (200 : Int) ≤ 10000 ∧ sC2.chan.q11 = [200] ∧
    ((pollRe sC2).solver.re = 200 ∧ (pollRe sC2).airRe = sC2.airRe ∧
     (pollRe sC2).chan.q11 = []) :=
  ⟨by decide, by decide, rfl,
    C2_reynolds_update_amended sC2 200 [] (by decide) (by decide) rfl⟩

/-- C3 counterexample: with `ReynoldsUpdate(500)` pending while Idle, one
full idle-branch cycle leaves the tag-11 queue untouched and the Reynolds
number unchanged — the idle branch does not poll tag 11, so the claimed
equality of the two tag sets (up to reset/save) fails. -/
theorem C3_idle_reynolds_pending_not_drained :
    (outerCycle opsC 1 sC3).chan.q11 = [500] ∧
    (outerCycle opsC 1 sC3).solver.re = 100 ∧ (100 : Int) ≠ 500 := by decide

/-- C3 (amended): the idle branch polls tags {12, 25, 13, 14, 44} and the
inner running loop polls tags {11, 12, 13, 25}; beyond ResetRequest and
SaveRequest being outer-only, ReynoldsUpdate is inner-only: an idle-branch
cycle leaves a pending tag-11 message and the Reynolds number untouched,
while the running loop never drains tags 14 and 44, and one running-loop
iteration drains a pending ReynoldsUpdate and applies it. -/
theorem C3_poll_tag_sets_amended {γ : Type} (ops : SolverOps γ) (s : LoopState γ) :
    (outerPolls ops s).chan.q11 = s.chan.q11 ∧
    (outerPolls ops s).solver.re = s.solver.re ∧
    (innerIter ops s).chan.q14 = s.chan.q14 ∧
    (innerIter ops s).chan.q44 = s.chan.q44 ∧
    (∀ (n : Int) (rest : List Int), s.chan.q11 = n :: rest →
      (innerIter ops s).solver.re = n ∧ (innerIter ops s).chan.q11 = rest) :=
  ⟨outerPolls_q11 ops s, outerPolls_re ops s, innerIter_q14 ops s, innerIter_q44 ops s,
    fun n rest h => innerIter_re_of_q11 ops s n rest h⟩

/-- Witness for the amended C3 at a concrete input. -/
theorem C3_poll_tag_sets_witness :
    (outerPolls opsC sC3).chan.q11 = sC3.chan.q11 ∧
    (outerPolls opsC sC3).solver.re = sC3.solver.re ∧
    (innerIter opsC sC3).chan.q14 = sC3.chan.q14 ∧
    (innerIter opsC sC3).chan.q44 = sC3.chan.q44 ∧
    ((innerIter opsC sC3).solver.re = 500 ∧ (innerIter opsC sC3).chan.q11 = []) :=
  ⟨(C3_poll_tag_sets_amended opsC sC3).1, (C3_poll_tag_sets_amended opsC sC3).2.1,
    (C3_poll_tag_sets_amended opsC sC3).2.2.1, (C3_poll_tag_sets_amended opsC sC3).2.2.2.1,
    (C3_poll_tag_sets_amended opsC sC3).2.2.2.2 500 [] rfl⟩

/-- C4 counterexample: with the pressure field selected and a
`ResetRequest(True)` pending, one idle cycle runs the reset handler, which
queries the U-velocity accessor for the redraw, not the selected pressure
field — the claim that the currently selected field is recomputed is
false. -/
theorem C4_reset_redraws_u_not_selected :
    (outerCycle opsC 1 sC4).plot = Plot.p ∧
    (outerCycle opsC 1 sC4).V.1 = Plot.u ∧ Plot.u ≠ Plot.p := by decide

/-- C4 (amended): when a `ResetRequest(True)` is polled, the solver's reset
operation is invoked and an immediate redraw is forced regardless of the
visualization cadence counter, but the field recomputed for display is
always the U-velocity field (`V = air.u()`), not the currently selected
field. -/
theorem C4_reset_handler_amended {γ : Type} (ops : SolverOps γ) (s : LoopState γ)
    (rest : List Bool) (h : s.chan.q14 = true :: rest) :
    (outerPolls ops s).solver = MACSolver_reset ops s.solver ∧
    (outerPolls ops s).V = fluid_u (MACSolver_reset ops s.solver) ∧
    (outerPolls ops s).resetDraws = s.resetDraws + 1 :=
  outerPolls_reset_true ops s rest h

/-- Witness for the amended C4 at a concrete input. -/
theorem C4_reset_handler_witness :
    sC4.chan.q14 = [true] ∧
    ((outerPolls opsC sC4).solver = MACSolver_reset opsC sC4.solver ∧
     (outerPolls opsC sC4).V = fluid_u (MACSolver_reset opsC sC4.solver) ∧
     (outerPolls opsC sC4).resetDraws = sC4.resetDraws + 1) :=
  ⟨rfl, C4_reset_handler_amended opsC sC4 [] rfl⟩

/-- C1 (code bug): with the loop Running and a `QuitRequest` pending, the
inner-loop poll does set `on=false`, but the inner loop's guard is
`while start`, which never consults `on`: for every `n`, after the quit
message has been polled the loop is still inside the running loop
(`start=true`) and has performed `n` further solver steps — it never reaches
the terminating outer-guard check, contradicting the claim that no further
solver step occurs and Terminating is reached within one iteration. -/
theorem C1_quit_polled_while_running_keeps_stepping :
    (innerIter opsC sC1).onFlag = false ∧
    (innerIter opsC sC1).start = true ∧
    ∀ n : Nat, (runInner opsC n (innerIter opsC sC1)).start = true ∧
      (runInner opsC n (innerIter opsC sC1)).onFlag = false ∧
      (runInner opsC n (innerIter opsC sC1)).i = 1 + n := by
  refine ⟨rfl, rfl, fun n => ?_⟩
  obtain ⟨h1, h2, h3, h4, h5⟩ := runInner_empty opsC n (innerIter opsC sC1) rfl rfl
  refine ⟨h2, ?_, ?_⟩
  · rw [h3]; rfl
  · rw [h4]; rfl

/-- C5 (code bug): two `SaveRequest` messages pending while Idle, two outer
cycles: both saves write the file index 0 (`i` is reset to 0 at the top of
every outer cycle before the save check), the file list is not duplicate
free, and the tag-44 queue is never drained, so the saves are neither
distinct nor sequentially numbered. -/
theorem C5_save_always_fig0 :
    (runLoop opsC 1 2 sC5).saved = [0, 0] ∧
    ¬ (runLoop opsC 1 2 sC5).saved.Nodup ∧
    (runLoop opsC 1 2 sC5).chan.q44 = ["1", "1"] := by decide

/-- C6 counterexample: a Running state with counter 7 and
`RunControl(False)` pending: the next inner iteration steps once more
(counter 8) and stops, but the following outer cycle resets the counter to
0 — the counter does not remain unchanged after returning to Idle. -/
theorem C6_iteration_counter_reset :
    (runInner opsC 1 sC6).start = false ∧
    (runInner opsC 1 sC6).i = 8 ∧
    (outerPolls opsC (runInner opsC 1 sC6)).i = 0 ∧ (0 : Nat) ≠ 8 := by decide

/-- C6 (amended): after `RunControl(false)` is polled while Running, the
state returns to Idle; while the loop stays Idle the counter is never
advanced (the inner loop is not entered), but it does not remain unchanged:
every outer cycle resets it to 0 at the loop head. -/
theorem C6_run_stop_amended {γ : Type} (ops : SolverOps γ) (s : LoopState γ)
    (rest : List Bool) (h : s.chan.q12 = false :: rest) :
    (innerIter ops s).start = false ∧
    (∀ t : LoopState γ, t.start = false →
      (∀ fuel : Nat, runInner ops fuel t = t) ∧ (outerPolls ops t).i = 0) :=
  ⟨innerIter_start_of_q12 ops s false rest h,
    fun t ht => ⟨fun fuel => runInner_of_not_start ops fuel t ht, outerPolls_i ops t⟩⟩

/-- Witness for the amended C6 at a concrete input. -/
theorem C6_run_stop_witness :
    sC6.chan.q12 = [false] ∧
    (innerIter opsC sC6).start = false ∧
    runInner opsC 5 (innerIter opsC sC6) = innerIter opsC sC6 ∧
    (outerPolls opsC (innerIter opsC sC6)).i = 0 :=
  ⟨rfl, (C6_run_stop_amended opsC sC6 [] rfl).1,
    ((C6_run_stop_amended opsC sC6 [] rfl).2 (innerIter opsC sC6)
      (C6_run_stop_amended opsC sC6 [] rfl).1).1 5,
    ((C6_run_stop_amended opsC sC6 [] rfl).2 (innerIter opsC sC6)
      (C6_run_stop_amended opsC sC6 [] rfl).1).2⟩

/-- C7: while Running with no pending messages, a run of exactly 250
consecutive solver steps starting from counter 0 fires the hot-path cadence
redraw exactly twice, at iterations 100 and 200 (reset- and save-forced
redraws are logged separately and are not counted here). -/
theorem C7_redraw_cadence {γ : Type} (ops : SolverOps γ) (s : LoopState γ)
    (hc : s.chan = emptyChan) (hs : s.start = true) (hi : s.i = 0)
    (hr : s.hotRedraws = []) :
    (runInner ops 250 s).hotRedraws = [100, 200] ∧ (runInner ops 250 s).i = 250 := by
  obtain ⟨h1, h2, h3, h4, h5⟩ := runInner_empty ops 250 s hc hs
  constructor
  · rw [h5, hr, hi]; decide
  · rw [h4, hi]

/-- Witness for C7 at a concrete input. -/
theorem C7_redraw_cadence_witness :
    sC7.chan = emptyChan ∧ sC7.start = true ∧ sC7.i = 0 ∧ sC7.hotRedraws = [] ∧
    ((runInner opsC 250 sC7).hotRedraws = [100, 200] ∧ (runInner opsC 250 sC7).i = 250) :=
  ⟨rfl, rfl, rfl, rfl, C7_redraw_cadence opsC sC7 rfl rfl rfl rfl⟩
